import Mathlib

/-!
Shallow embedding of the TempTracker service (src/main.py) and proofs about
its analysis engine.

Modelling conventions, fixed once for the whole file:

* Python floats are modelled as exact rationals `ℚ`.  All the arithmetic the
  program performs (sums, means, divisions, comparisons) is embedded exactly.
* Timestamps are modelled as integers (seconds).  The program stores
  `datetime.now().isoformat()` strings, parses them back with
  `datetime.fromisoformat` for window filtering, and sorts by the string; for
  the fixed-width ISO format the program itself writes, lexicographic string
  order, parsed-datetime order and the integer second/microsecond count are
  the same linear order, so a single integer field models all three uses.
* `timedelta(hours=hours)` is `3600 * hours` seconds.
* Python's `sorted` is a stable sort; `List.insertionSort` with a `≤`
  relation is also stable, so it is a faithful model.
* `statistics.stdev` is the square root of the sample variance.  The only
  use the program makes of it is the comparison `|x - avg| > 2 * stdev`;
  since both sides are nonnegative this comparison holds exactly when
  `(x - avg)^2 > 4 * sampleVar`, which is how the spike predicates below
  encode it, avoiding noncomputable real square roots.
* `HTTPException` control flow becomes `Except`: the two 404s of
  `/analysis` are the `NoReadings` failure, the two 400s of `POST /reading`
  are the two validation errors.
-/

namespace TempTracker

/-- A stored reading: `temperature`/`humidity` floats plus a timestamp
(src/main.py lines 36-39 and 61-65; the timestamp is modelled as an integer,
see the header comment). -/
structure Reading where
  temperature : ℚ
  humidity : ℚ
  timestamp : ℤ
deriving Repr, DecidableEq

/-- The two 400 errors of `POST /reading` (src/main.py lines 55-58), named as
in the spec's taxonomy. -/
inductive ValidationError where
  | outOfRangeTemperature
  | outOfRangeHumidity
deriving Repr, DecidableEq

/-- The 404 failure of `GET /analysis` (src/main.py lines 112-113 and
127-128), named as in the spec's taxonomy. -/
inductive AnalysisError where
  | noReadings
deriving Repr, DecidableEq

/-- `statistics.mean`: sum divided by length.  (Python raises on an empty
list; the program only applies it to nonempty lists, where the embedding
agrees; on `[]` this returns `0`.) -/
def mean (xs : List ℚ) : ℚ := xs.sum / (xs.length : ℚ)

/-- Python's builtin `max` over a nonempty list (left fold). -/
def listMax : List ℚ → ℚ
  | [] => 0
  | x :: xs => xs.foldl max x

/-- Python's builtin `min` over a nonempty list (left fold). -/
def listMin : List ℚ → ℚ
  | [] => 0
  | x :: xs => xs.foldl min x

/-- The sample variance, i.e. the square of `statistics.stdev`:
`Σ (x - mean)² / (n - 1)`.  The program only uses `stdev` inside the
comparison `|x - avg| > 2*stdev`, embedded below as
`(x - avg)² > 4 * sampleVar`. -/
def sampleVar (xs : List ℚ) : ℚ :=
  (xs.map (fun x => (x - mean xs) ^ 2)).sum / ((xs.length : ℚ) - 1)

/-- Round-half-to-even to the nearest integer, the tie rule of Python's
builtin `round`. -/
def roundHalfEven (q : ℚ) : ℤ :=
  if q - ⌊q⌋ < 1 / 2 then ⌊q⌋
  else if 1 / 2 < q - ⌊q⌋ then ⌊q⌋ + 1
  else if ⌊q⌋ % 2 = 0 then ⌊q⌋ else ⌊q⌋ + 1

/-- Python's `round(x, 2)`: round-half-even at two decimal places. -/
def round2 (q : ℚ) : ℚ := (roundHalfEven (q * 100) : ℚ) / 100

/-- The sort key of both `sorted` calls in src/main.py (lines 100 and 139):
ascending timestamp. -/
def byTime (a b : Reading) : Prop := a.timestamp ≤ b.timestamp

instance : DecidableRel byTime := fun a b =>
  inferInstanceAs (Decidable (a.timestamp ≤ b.timestamp))

instance : IsTotal Reading byTime := ⟨fun a b => Int.le_total a.timestamp b.timestamp⟩

instance : IsTrans Reading byTime := ⟨fun _ _ _ => Int.le_trans⟩

/-- Python's stable `sorted(..., key=timestamp)` (src/main.py lines 100
and 139). -/
def sortReadings (l : List Reading) : List Reading := List.insertionSort byTime l

/-- The window filter used by both `/readings` and `/analysis` (src/main.py
lines 88-98 and 115-125): keep readings with `timestamp > now - hours`. -/
def filterWindow (readings : List Reading) (hours now : ℤ) : List Reading :=
  readings.filter (fun r => decide (now - 3600 * hours < r.timestamp))

/-- The validation performed by `POST /reading` before storing (src/main.py
lines 55-58): temperature must lie in `[-50, 150]` (checked first), humidity
in `[0, 100]`. -/
def validate (temperature humidity : ℚ) : Except ValidationError Unit :=
  if ¬ (-50 ≤ temperature ∧ temperature ≤ 150) then
    Except.error ValidationError.outOfRangeTemperature
  else if ¬ (0 ≤ humidity ∧ humidity ≤ 100) then
    Except.error ValidationError.outOfRangeHumidity
  else Except.ok ()

/-- `GET /readings` (src/main.py lines 78-100): fetch the store, return `[]`
when it is empty, otherwise filter to the window and sort by timestamp. -/
def get_readings (store : List Reading) (hours now : ℤ) : List Reading :=
  if store = [] then []
  else sortReadings (filterWindow store hours now)

/-- One entry of the `anomalies` list (src/main.py lines 193-198). -/
structure Anomaly where
  temperature : ℚ
  humidity : ℚ
  timestamp : ℤ
  reason : String
deriving Repr, DecidableEq

/-- The temperature spike test `abs(temp - avg_temp) > 2 * temp_std`
(src/main.py lines 192 and 197), encoded exactly as
`(temp - avg)² > 4 * variance` (see the header comment). -/
def tempSpike (avg variance x : ℚ) : Bool := decide (4 * variance < (x - avg) ^ 2)

/-- The humidity spike test `abs(hum - avg_humidity) > 2 * humidity_std`
(src/main.py line 192), encoded like `tempSpike`. -/
def humSpike (avg variance x : ℚ) : Bool := decide (4 * variance < (x - avg) ^ 2)

/-- The anomaly loop (src/main.py lines 191-198): walk the sorted data, keep
readings where either spike test fires, and label each kept reading
`"Temperature spike"` when the temperature test fires (checked first) and
`"Humidity spike"` otherwise. -/
def anomalyList (sorted_data : List Reading)
    (avg_temp avg_humidity var_temp var_humidity : ℚ) : List Anomaly :=
  (sorted_data.filter (fun r =>
      tempSpike avg_temp var_temp r.temperature ||
      humSpike avg_humidity var_humidity r.humidity)).map
    (fun r =>
      { temperature := r.temperature
        humidity := r.humidity
        timestamp := r.timestamp
        reason := if tempSpike avg_temp var_temp r.temperature
                  then "Temperature spike" else "Humidity spike" })

/-- The `temperature` and `humidity` sections of the analysis response
(src/main.py lines 203-214). -/
structure MetricStats where
  average : ℚ
  max : ℚ
  min : ℚ
  trend : String
deriving Repr, DecidableEq

/-- The `comfort` section of the analysis response (src/main.py
lines 215-220). -/
structure Comfort where
  level : String
  score : ℕ
  temperature_comment : String
  humidity_comment : String
deriving Repr, DecidableEq

/-- The full analysis response (src/main.py lines 200-222). -/
structure AnalysisResult where
  period_hours : ℤ
  readings_count : ℕ
  temperature : MetricStats
  humidity : MetricStats
  comfort : Comfort
  anomalies : List Anomaly
deriving Repr, DecidableEq

/-- The trend string of src/main.py line 144. -/
def risingLabel : String := "↑ Rising"

/-- The trend string of src/main.py line 144. -/
def fallingLabel : String := "↓ Falling"

/-- The trend string of src/main.py line 150. -/
def stableLabel : String := "→ Stable"

/-- The body of `GET /analysis` after the emptiness checks (src/main.py
lines 130-222), as a function of the filtered readings and the `hours`
parameter.  Each `let` mirrors one block of the Python code. -/
def analysisResult (filtered : List Reading) (hours : ℤ) : AnalysisResult :=
  let temps := filtered.map Reading.temperature
  let humidities := filtered.map Reading.humidity
  let avg_temp := mean temps
  let avg_humidity := mean humidities
  let sorted_data := sortReadings filtered
  let n := sorted_data.length
  let temp_trend :=
    if 1 < n then
      if mean ((sorted_data.drop (n / 2)).map Reading.temperature) >
         mean ((sorted_data.take (n / 2)).map Reading.temperature)
      then risingLabel else fallingLabel
    else stableLabel
  let humidity_trend :=
    if 1 < n then
      if mean ((sorted_data.drop (n / 2)).map Reading.humidity) >
         mean ((sorted_data.take (n / 2)).map Reading.humidity)
      then risingLabel else fallingLabel
    else stableLabel
  let tempAxis : ℕ × String :=
    if 18 ≤ avg_temp ∧ avg_temp ≤ 24 then (50, "Optimal temperature")
    else if 15 ≤ avg_temp ∧ avg_temp ≤ 30 then (25, "Acceptable temperature")
    else (0, "Outside comfort zone")
  let humAxis : ℕ × String :=
    if 40 ≤ avg_humidity ∧ avg_humidity ≤ 60 then (50, "Optimal humidity")
    else if 30 ≤ avg_humidity ∧ avg_humidity ≤ 70 then (25, "Acceptable humidity")
    else (0, "Outside comfort zone")
  let comfort_score := tempAxis.1 + humAxis.1
  let comfort_level :=
    if 80 ≤ comfort_score then "Excellent"
    else if 60 ≤ comfort_score then "Good"
    else if 40 ≤ comfort_score then "Fair"
    else "Poor"
  let anomalies :=
    if 2 < temps.length then
      anomalyList sorted_data avg_temp avg_humidity (sampleVar temps) (sampleVar humidities)
    else []
  { period_hours := hours
    readings_count := temps.length
    temperature :=
      { average := round2 avg_temp
        max := round2 (listMax temps)
        min := round2 (listMin temps)
        trend := temp_trend }
    humidity :=
      { average := round2 avg_humidity
        max := round2 (listMax humidities)
        min := round2 (listMin humidities)
        trend := humidity_trend }
    comfort :=
      { level := comfort_level
        score := comfort_score
        temperature_comment := tempAxis.2
        humidity_comment := humAxis.2 }
    anomalies := anomalies.take 5 }

/-- `GET /analysis` (src/main.py lines 105-222): 404 (`NoReadings`) when the
store is empty or when the window filter leaves nothing, otherwise the
analysis of the filtered readings. -/
def get_analysis (readings : List Reading) (hours now : ℤ) :
    Except AnalysisError AnalysisResult :=
  if readings = [] then Except.error AnalysisError.noReadings
  else
    let filtered := filterWindow readings hours now
    if filtered = [] then Except.error AnalysisError.noReadings
    else Except.ok (analysisResult filtered hours)

/-! Helper lemmas shared by the claim theorems. -/

theorem filterWindow_nil (hours now : ℤ) : filterWindow [] hours now = [] := rfl

theorem analysis_ok {readings : List Reading} {hours now : ℤ} {res : AnalysisResult}
    (h : get_analysis readings hours now = Except.ok res) :
    filterWindow readings hours now ≠ [] ∧
      res = analysisResult (filterWindow readings hours now) hours := by
  by_cases h1 : readings = []
  · simp [get_analysis, h1] at h
  · by_cases h2 : filterWindow readings hours now = []
    · simp [get_analysis, h1, h2] at h
    · simp [get_analysis, h1, h2] at h
      exact ⟨h2, h.symm⟩

theorem analysis_ok_of_ne {readings : List Reading} {hours now : ℤ}
    (h2 : filterWindow readings hours now ≠ []) :
    get_analysis readings hours now =
      Except.ok (analysisResult (filterWindow readings hours now) hours) := by
  have h1 : readings ≠ [] := by
    intro h1
    exact h2 (by rw [h1]; rfl)
  simp [get_analysis, h1, h2]

theorem analysis_error_iff (readings : List Reading) (hours now : ℤ) :
    get_analysis readings hours now = Except.error AnalysisError.noReadings ↔
      filterWindow readings hours now = [] := by
  constructor
  · intro h
    by_contra h2
    rw [analysis_ok_of_ne h2] at h
    exact Except.noConfusion h
  · intro h2
    by_cases h1 : readings = [] <;> simp [get_analysis, h1, h2]

/-- Concrete one-reading input shared by several witnesses. -/
def sample1 : List Reading := [{ temperature := 20, humidity := 50, timestamp := 0 }]

/-- Concrete three-reading input shared by several witnesses. -/
def sample3 : List Reading :=
  [{ temperature := 20, humidity := 50, timestamp := 0 },
   { temperature := 21, humidity := 55, timestamp := 10 },
   { temperature := 25, humidity := 60, timestamp := 20 }]

/-- C5: the analysis retains exactly the readings with
`timestamp > now - window_hours` (3600·hours seconds), fails with
`NoReadings` precisely when that filtered set is empty (so in particular on
an empty input list), and otherwise returns an `AnalysisResult`. -/
theorem analyze_filters_and_fails_iff_empty (readings : List Reading) (hours now : ℤ) :
    (∀ r : Reading, r ∈ filterWindow readings hours now ↔
        r ∈ readings ∧ now - 3600 * hours < r.timestamp) ∧
    (get_analysis readings hours now = Except.error AnalysisError.noReadings ↔
        filterWindow readings hours now = []) ∧
    (filterWindow readings hours now ≠ [] →
        get_analysis readings hours now =
          Except.ok (analysisResult (filterWindow readings hours now) hours)) := by
  refine ⟨fun r => ?_, analysis_error_iff readings hours now, fun h2 => analysis_ok_of_ne h2⟩
  simp [filterWindow, List.mem_filter]

/-- Witness for C5 at the concrete input of the spec's own test:
`analyze([], h, now)` fails with `NoReadings`. -/
theorem analyze_filters_and_fails_iff_empty_w :
    get_analysis ([] : List Reading) 24 0 = Except.error AnalysisError.noReadings :=
  (analyze_filters_and_fails_iff_empty [] 24 0).2.1.mpr rfl

/-- Counterexample to C7 as stated: at temperature 200 and humidity 150 both
inputs are out of range, and validation reports the temperature error, not
the humidity error the claim promises for every out-of-range humidity. -/
theorem validate_humidity_claim_cex :
    validate 200 150 = Except.error ValidationError.outOfRangeTemperature ∧
      validate 200 150 ≠ Except.error ValidationError.outOfRangeHumidity := by
  refine ⟨rfl, fun h => ?_⟩
  rw [show validate 200 150 = Except.error ValidationError.outOfRangeTemperature from rfl] at h
  simp at h

/-- C7 (amended): validation fails with `OutOfRangeTemperature` for every
temperature outside `[-50, 150]`; when the temperature is in range it fails
with `OutOfRangeHumidity` for every humidity outside `[0, 100]`; and it
succeeds whenever both are in range. -/
theorem validate_range_spec (t h : ℚ) :
    (¬ (-50 ≤ t ∧ t ≤ 150) →
        validate t h = Except.error ValidationError.outOfRangeTemperature) ∧
    ((-50 ≤ t ∧ t ≤ 150) → ¬ (0 ≤ h ∧ h ≤ 100) →
        validate t h = Except.error ValidationError.outOfRangeHumidity) ∧
    ((-50 ≤ t ∧ t ≤ 150) → (0 ≤ h ∧ h ≤ 100) → validate t h = Except.ok ()) := by
  refine ⟨fun ht => ?_, fun ht hh => ?_, fun ht hh => ?_⟩
  · simp [validate, ht]
  · simp [validate, ht, hh]
  · simp [validate, ht, hh]

/-- Witness for C7's amended theorem: an in-range pair validates. -/
theorem validate_range_spec_w : validate 20 50 = Except.ok () :=
  (validate_range_spec 20 50).2.2 (by norm_num) (by norm_num)

/-- C8: the temperature bound is checked first, so any out-of-range
temperature yields the temperature error regardless of the humidity. -/
theorem add_reading_temp_checked_first (t h : ℚ) (ht : ¬ (-50 ≤ t ∧ t ≤ 150)) :
    validate t h = Except.error ValidationError.outOfRangeTemperature := by
  simp [validate, ht]

/-- Witness for C8: both inputs out of range still gives the temperature
error. -/
theorem add_reading_temp_checked_first_w :
    validate 200 200 = Except.error ValidationError.outOfRangeTemperature :=
  add_reading_temp_checked_first 200 200 (by norm_num)

/-- C10: `get_readings` returns the empty list (not an error) when nothing
passes the window filter, and in general returns exactly the filtered
readings, sorted ascending by timestamp. -/
theorem get_readings_spec (store : List Reading) (hours now : ℤ) :
    (filterWindow store hours now = [] → get_readings store hours now = []) ∧
    (get_readings store hours now).Perm (filterWindow store hours now) ∧
    List.Sorted byTime (get_readings store hours now) := by
  by_cases h1 : store = []
  · subst h1
    exact ⟨fun _ => rfl, by simp [get_readings, filterWindow], by simp [get_readings]⟩
  · unfold get_readings
    rw [if_neg h1]
    refine ⟨fun h2 => ?_, ?_, ?_⟩
    · rw [h2]; rfl
    · exact List.perm_insertionSort byTime _
    · exact List.sorted_insertionSort byTime _

/-- Witness for C10: the empty store yields the empty list. -/
theorem get_readings_spec_w : get_readings ([] : List Reading) 24 0 = [] :=
  (get_readings_spec [] 24 0).1 rfl

/-! Projection lemmas: each reads one field off `analysisResult`. -/

theorem analysisResult_temp_trend (filtered : List Reading) (hours : ℤ) :
    (analysisResult filtered hours).temperature.trend =
      (if 1 < (sortReadings filtered).length then
        if mean (((sortReadings filtered).drop
              ((sortReadings filtered).length / 2)).map Reading.temperature) >
           mean (((sortReadings filtered).take
              ((sortReadings filtered).length / 2)).map Reading.temperature)
        then risingLabel else fallingLabel
      else stableLabel) := rfl

theorem analysisResult_hum_trend (filtered : List Reading) (hours : ℤ) :
    (analysisResult filtered hours).humidity.trend =
      (if 1 < (sortReadings filtered).length then
        if mean (((sortReadings filtered).drop
              ((sortReadings filtered).length / 2)).map Reading.humidity) >
           mean (((sortReadings filtered).take
              ((sortReadings filtered).length / 2)).map Reading.humidity)
        then risingLabel else fallingLabel
      else stableLabel) := rfl

theorem analysisResult_comfort_score (filtered : List Reading) (hours : ℤ) :
    (analysisResult filtered hours).comfort.score =
      ((if 18 ≤ mean (filtered.map Reading.temperature) ∧
            mean (filtered.map Reading.temperature) ≤ 24 then
          ((50 : ℕ), "Optimal temperature")
        else if 15 ≤ mean (filtered.map Reading.temperature) ∧
            mean (filtered.map Reading.temperature) ≤ 30 then
          (25, "Acceptable temperature")
        else (0, "Outside comfort zone")).1 +
       (if 40 ≤ mean (filtered.map Reading.humidity) ∧
            mean (filtered.map Reading.humidity) ≤ 60 then
          ((50 : ℕ), "Optimal humidity")
        else if 30 ≤ mean (filtered.map Reading.humidity) ∧
            mean (filtered.map Reading.humidity) ≤ 70 then
          (25, "Acceptable humidity")
        else (0, "Outside comfort zone")).1) := rfl

theorem analysisResult_temp_comment (filtered : List Reading) (hours : ℤ) :
    (analysisResult filtered hours).comfort.temperature_comment =
      (if 18 ≤ mean (filtered.map Reading.temperature) ∧
            mean (filtered.map Reading.temperature) ≤ 24 then
          (((50 : ℕ), "Optimal temperature") : ℕ × String)
        else if 15 ≤ mean (filtered.map Reading.temperature) ∧
            mean (filtered.map Reading.temperature) ≤ 30 then
          (25, "Acceptable temperature")
        else (0, "Outside comfort zone")).2 := rfl

theorem analysisResult_hum_comment (filtered : List Reading) (hours : ℤ) :
    (analysisResult filtered hours).comfort.humidity_comment =
      (if 40 ≤ mean (filtered.map Reading.humidity) ∧
            mean (filtered.map Reading.humidity) ≤ 60 then
          (((50 : ℕ), "Optimal humidity") : ℕ × String)
        else if 30 ≤ mean (filtered.map Reading.humidity) ∧
            mean (filtered.map Reading.humidity) ≤ 70 then
          (25, "Acceptable humidity")
        else (0, "Outside comfort zone")).2 := rfl

theorem analysisResult_comfort_level (filtered : List Reading) (hours : ℤ) :
    (analysisResult filtered hours).comfort.level =
      (if 80 ≤ (analysisResult filtered hours).comfort.score then "Excellent"
       else if 60 ≤ (analysisResult filtered hours).comfort.score then "Good"
       else if 40 ≤ (analysisResult filtered hours).comfort.score then "Fair"
       else "Poor") := rfl

theorem analysisResult_anomalies (filtered : List Reading) (hours : ℤ) :
    (analysisResult filtered hours).anomalies =
      (if 2 < (filtered.map Reading.temperature).length then
        anomalyList (sortReadings filtered)
          (mean (filtered.map Reading.temperature))
          (mean (filtered.map Reading.humidity))
          (sampleVar (filtered.map Reading.temperature))
          (sampleVar (filtered.map Reading.humidity))
      else []).take 5 := rfl

theorem rising_ne_falling : risingLabel ≠ fallingLabel := by decide

theorem falling_ne_rising : fallingLabel ≠ risingLabel := by decide

/-- C9: the result carries `period_hours` equal to the `hours` argument and
`readings_count` equal to the size of the filtered set. -/
theorem analysis_extra_fields (readings : List Reading) (hours now : ℤ)
    (res : AnalysisResult) (h : get_analysis readings hours now = Except.ok res) :
    res.period_hours = hours ∧
      res.readings_count = (filterWindow readings hours now).length := by
  obtain ⟨-, hres⟩ := analysis_ok h
  subst hres
  exact ⟨rfl, by simp [analysisResult]⟩

/-- Witness for C9 on a concrete one-reading store. -/
theorem analysis_extra_fields_w :
    (analysisResult (filterWindow sample1 1 0) 1).period_hours = 1 :=
  (analysis_extra_fields sample1 1 0 (analysisResult (filterWindow sample1 1 0) 1) rfl).1

/-- C1: with the filtered readings sorted ascending by timestamp and split
at the floor midpoint (first half `[0, n/2)`, second half `[n/2, n)`), each
metric's trend is the rising label exactly when the second-half mean is
strictly greater than the first-half mean and the falling label otherwise
(so also on exact ties), while a single-reading window reports the stable
label for both metrics regardless of values. -/
theorem trend_split_spec (readings : List Reading) (hours now : ℤ)
    (res : AnalysisResult) (sd : List Reading)
    (h : get_analysis readings hours now = Except.ok res)
    (hsd : sd = sortReadings (filterWindow readings hours now)) :
    (sd.length = 1 →
        res.temperature.trend = stableLabel ∧ res.humidity.trend = stableLabel) ∧
    (1 < sd.length →
        ((res.temperature.trend = risingLabel ↔
            mean ((sd.take (sd.length / 2)).map Reading.temperature) <
              mean ((sd.drop (sd.length / 2)).map Reading.temperature)) ∧
         (res.temperature.trend = fallingLabel ↔
            ¬ mean ((sd.take (sd.length / 2)).map Reading.temperature) <
              mean ((sd.drop (sd.length / 2)).map Reading.temperature)) ∧
         (res.humidity.trend = risingLabel ↔
            mean ((sd.take (sd.length / 2)).map Reading.humidity) <
              mean ((sd.drop (sd.length / 2)).map Reading.humidity)) ∧
         (res.humidity.trend = fallingLabel ↔
            ¬ mean ((sd.take (sd.length / 2)).map Reading.humidity) <
              mean ((sd.drop (sd.length / 2)).map Reading.humidity)))) := by
  obtain ⟨-, hres⟩ := analysis_ok h
  subst hres hsd
  rw [analysisResult_temp_trend, analysisResult_hum_trend]
  constructor
  · intro h1
    rw [if_neg (by omega), if_neg (by omega)]
    exact ⟨rfl, rfl⟩
  · intro h1
    rw [if_pos h1, if_pos h1]
    simp only [gt_iff_lt]
    by_cases ht : mean (((sortReadings (filterWindow readings hours now)).take
          ((sortReadings (filterWindow readings hours now)).length / 2)).map Reading.temperature) <
        mean (((sortReadings (filterWindow readings hours now)).drop
          ((sortReadings (filterWindow readings hours now)).length / 2)).map Reading.temperature) <;>
      by_cases hh : mean (((sortReadings (filterWindow readings hours now)).take
          ((sortReadings (filterWindow readings hours now)).length / 2)).map Reading.humidity) <
        mean (((sortReadings (filterWindow readings hours now)).drop
          ((sortReadings (filterWindow readings hours now)).length / 2)).map Reading.humidity) <;>
      simp [ht, hh, rising_ne_falling, falling_ne_rising]

/-- Witness for C1: a single-reading window reports the stable trend. -/
theorem trend_split_spec_w :
    (analysisResult (filterWindow sample1 1 0) 1).temperature.trend = stableLabel :=
  ((trend_split_spec sample1 1 0 (analysisResult (filterWindow sample1 1 0) 1)
      (sortReadings (filterWindow sample1 1 0)) rfl rfl).1 (by decide)).1

/-- C2: with `n ≤ 2` filtered readings the anomalies list is empty; with
`n > 2` a reading is flagged exactly when `(t - avg_t)² > 4·var_t` (the
exact encoding of `|t - avg_t| > 2·std_t`) or the humidity analogue holds,
its reason is `"Temperature spike"` whenever the temperature condition holds
(even if both do) and `"Humidity spike"` otherwise, and the reported list is
the 5-entry prefix of the flagged list. -/
theorem anomaly_flagging_spec (readings : List Reading) (hours now : ℤ)
    (res : AnalysisResult) (avg_t avg_h var_t var_h : ℚ)
    (h : get_analysis readings hours now = Except.ok res)
    (hat : avg_t = mean ((filterWindow readings hours now).map Reading.temperature))
    (hah : avg_h = mean ((filterWindow readings hours now).map Reading.humidity))
    (hvt : var_t = sampleVar ((filterWindow readings hours now).map Reading.temperature))
    (hvh : var_h = sampleVar ((filterWindow readings hours now).map Reading.humidity)) :
    ((filterWindow readings hours now).length ≤ 2 → res.anomalies = []) ∧
    (2 < (filterWindow readings hours now).length →
      res.anomalies =
        (((sortReadings (filterWindow readings hours now)).filter (fun r =>
            decide (4 * var_t < (r.temperature - avg_t) ^ 2) ||
            decide (4 * var_h < (r.humidity - avg_h) ^ 2))).map
          (fun r =>
            { temperature := r.temperature
              humidity := r.humidity
              timestamp := r.timestamp
              reason := if 4 * var_t < (r.temperature - avg_t) ^ 2
                        then "Temperature spike" else "Humidity spike" })).take 5) := by
  obtain ⟨-, hres⟩ := analysis_ok h
  subst hres hat hah hvt hvh
  rw [analysisResult_anomalies]
  constructor
  · intro hle
    rw [if_neg (by simp only [List.length_map]; omega)]
    rfl
  · intro hgt
    rw [if_pos (by simp only [List.length_map]; omega)]
    simp only [anomalyList, tempSpike, humSpike, decide_eq_true_eq]

/-- Witness for C2: a window of fewer than three readings has no
anomalies. -/
theorem anomaly_flagging_spec_w :
    (analysisResult (filterWindow sample1 1 0) 1).anomalies = [] :=
  (anomaly_flagging_spec sample1 1 0 (analysisResult (filterWindow sample1 1 0) 1)
      (mean ((filterWindow sample1 1 0).map Reading.temperature))
      (mean ((filterWindow sample1 1 0).map Reading.humidity))
      (sampleVar ((filterWindow sample1 1 0).map Reading.temperature))
      (sampleVar ((filterWindow sample1 1 0).map Reading.humidity))
      rfl rfl rfl rfl rfl).1 (by decide)

/-- C3: the comfort score is the sum of the temperature axis
(50 in `[18,24]`, else 25 in `[15,30]`, else 0) and the humidity axis
(50 in `[40,60]`, else 25 in `[30,70]`, else 0) of the unrounded averages,
each axis carrying its comment, and the level is Excellent/Good/Fair/Poor at
the 80/60/40 thresholds on the summed score. -/
theorem comfort_spec (readings : List Reading) (hours now : ℤ)
    (res : AnalysisResult) (avg_t avg_h : ℚ)
    (h : get_analysis readings hours now = Except.ok res)
    (hat : avg_t = mean ((filterWindow readings hours now).map Reading.temperature))
    (hah : avg_h = mean ((filterWindow readings hours now).map Reading.humidity)) :
    res.comfort.score =
      ((if 18 ≤ avg_t ∧ avg_t ≤ 24 then 50
        else if 15 ≤ avg_t ∧ avg_t ≤ 30 then 25 else 0) +
       (if 40 ≤ avg_h ∧ avg_h ≤ 60 then 50
        else if 30 ≤ avg_h ∧ avg_h ≤ 70 then 25 else 0)) ∧
    res.comfort.temperature_comment =
      (if 18 ≤ avg_t ∧ avg_t ≤ 24 then "Optimal temperature"
       else if 15 ≤ avg_t ∧ avg_t ≤ 30 then "Acceptable temperature"
       else "Outside comfort zone") ∧
    res.comfort.humidity_comment =
      (if 40 ≤ avg_h ∧ avg_h ≤ 60 then "Optimal humidity"
       else if 30 ≤ avg_h ∧ avg_h ≤ 70 then "Acceptable humidity"
       else "Outside comfort zone") ∧
    res.comfort.level =
      (if 80 ≤ res.comfort.score then "Excellent"
       else if 60 ≤ res.comfort.score then "Good"
       else if 40 ≤ res.comfort.score then "Fair" else "Poor") := by
  obtain ⟨-, hres⟩ := analysis_ok h
  subst hres hat hah
  refine ⟨?_, ?_, ?_, analysisResult_comfort_level _ _⟩
  · rw [analysisResult_comfort_score]
    simp only [apply_ite Prod.fst]
  · rw [analysisResult_temp_comment]
    simp only [apply_ite Prod.snd]
  · rw [analysisResult_hum_comment]
    simp only [apply_ite Prod.snd]

/-- Witness for C3: averages 22 °C and 55 % score 50 + 50 = 100. -/
theorem comfort_spec_w :
    (analysisResult (filterWindow sample3 1 0) 1).comfort.score = 100 := by
  rw [(comfort_spec sample3 1 0 (analysisResult (filterWindow sample3 1 0) 1)
      (mean ((filterWindow sample3 1 0).map Reading.temperature))
      (mean ((filterWindow sample3 1 0).map Reading.humidity)) rfl rfl rfl).1]
  norm_num [filterWindow, sample3, mean]

/-- C4: the temperature and humidity sections report mean, max and min over
the filtered set rounded to two decimals (round-half-even, as Python's
`round`), while every anomaly entry carries the raw temperature, humidity
and timestamp of its source reading unchanged.  The comfort score is a raw
integer by construction (`Comfort.score : ℕ`), so no rounding applies to
it. -/
theorem rounding_spec (readings : List Reading) (hours now : ℤ)
    (res : AnalysisResult)
    (h : get_analysis readings hours now = Except.ok res) :
    res.temperature.average =
      round2 (mean ((filterWindow readings hours now).map Reading.temperature)) ∧
    res.temperature.max =
      round2 (listMax ((filterWindow readings hours now).map Reading.temperature)) ∧
    res.temperature.min =
      round2 (listMin ((filterWindow readings hours now).map Reading.temperature)) ∧
    res.humidity.average =
      round2 (mean ((filterWindow readings hours now).map Reading.humidity)) ∧
    res.humidity.max =
      round2 (listMax ((filterWindow readings hours now).map Reading.humidity)) ∧
    res.humidity.min =
      round2 (listMin ((filterWindow readings hours now).map Reading.humidity)) ∧
    (∀ a ∈ res.anomalies, ∃ r ∈ filterWindow readings hours now,
        a.temperature = r.temperature ∧ a.humidity = r.humidity ∧
        a.timestamp = r.timestamp) := by
  obtain ⟨-, hres⟩ := analysis_ok h
  subst hres
  refine ⟨rfl, rfl, rfl, rfl, rfl, rfl, fun a ha => ?_⟩
  rw [analysisResult_anomalies] at ha
  have ha' := List.take_subset 5 _ ha
  by_cases hn : 2 < ((filterWindow readings hours now).map Reading.temperature).length
  · rw [if_pos hn] at ha'
    unfold anomalyList at ha'
    obtain ⟨r, hr, rfl⟩ := List.mem_map.mp ha'
    have hr2 : r ∈ sortReadings (filterWindow readings hours now) :=
      List.mem_of_mem_filter hr
    have hr3 : r ∈ filterWindow readings hours now :=
      (List.perm_insertionSort byTime _).mem_iff.mp hr2
    exact ⟨r, hr3, rfl, rfl, rfl⟩
  · rw [if_neg hn] at ha'
    simp at ha'

/-- Witness for C4: the rounded average of 20, 21, 25 is exactly 22. -/
theorem rounding_spec_w :
    (analysisResult (filterWindow sample3 1 0) 1).temperature.average = 22 := by
  rw [(rounding_spec sample3 1 0 (analysisResult (filterWindow sample3 1 0) 1) rfl).1]
  norm_num [filterWindow, sample3, mean, round2, roundHalfEven]

/-- C6: the anomalies list has at most 5 entries, is ordered by ascending
timestamp, and when more than 2 readings are in the window it is exactly the
5-entry prefix (chronologically first, no severity ranking) of the full
flagged list. -/
theorem anomalies_truncation_spec (readings : List Reading) (hours now : ℤ)
    (res : AnalysisResult) (h : get_analysis readings hours now = Except.ok res) :
    res.anomalies.length ≤ 5 ∧
    res.anomalies.Pairwise (fun a b => a.timestamp ≤ b.timestamp) ∧
    (2 < (filterWindow readings hours now).length →
      res.anomalies =
        (anomalyList (sortReadings (filterWindow readings hours now))
          (mean ((filterWindow readings hours now).map Reading.temperature))
          (mean ((filterWindow readings hours now).map Reading.humidity))
          (sampleVar ((filterWindow readings hours now).map Reading.temperature))
          (sampleVar ((filterWindow readings hours now).map Reading.humidity))).take 5) := by
  obtain ⟨-, hres⟩ := analysis_ok h
  subst hres
  rw [analysisResult_anomalies]
  refine ⟨List.length_take_le 5 _, ?_, fun hgt => ?_⟩
  · apply List.Pairwise.sublist (List.take_sublist 5 _)
    by_cases hn : 2 < ((filterWindow readings hours now).map Reading.temperature).length
    · rw [if_pos hn]
      unfold anomalyList
      rw [List.pairwise_map]
      have hsort : List.Sorted byTime (sortReadings (filterWindow readings hours now)) :=
        List.sorted_insertionSort byTime _
      exact (List.Pairwise.sublist (List.filter_sublist _) hsort).imp (fun hab => hab)
    · rw [if_neg hn]
      exact List.Pairwise.nil
  · rw [if_pos (by simp only [List.length_map]; omega)]

/-- Witness for C6: the concrete three-reading window has at most five
anomalies. -/
theorem anomalies_truncation_spec_w :
    (analysisResult (filterWindow sample3 1 0) 1).anomalies.length ≤ 5 :=
  (anomalies_truncation_spec sample3 1 0
      (analysisResult (filterWindow sample3 1 0) 1) rfl).1

end TempTracker
